import Mathlib

/-!
Verification of `escher-rs` (`src/client.rs`), a client for the Escher
trading API. The claims under study concern the response-classification
protocol (probe the success shape first, then the structured-error shape),
the serde-derived decoders for `AuthResponse`, `Quote`, `Order`,
`AcceptQuote` and `EscherError`, and the outbound request bodies built
with `json!`.

The embedding models `serde_json::Value` as `Json`, decoding as total
functions `Json → Except DecodeErr α` mirroring the derived
`Deserialize` impls (fields checked in declaration order, unknown fields
ignored, `deserialize_with = "from_str"` numeric fields demanding a JSON
string), and the shared `from_value::<T>(v.clone()).map_err(|_| …)`
classification expression as `classify`. Rust `f32` values obtained by
parsing decimal strings are modelled exactly as rationals (the model
elides `f32` rounding and the non-finite literals `inf`/`nan`, which no
claim touches); `chrono::DateTime<Utc>` is modelled as seconds/nanos
since the epoch obtained from an RFC 3339 parser (leap seconds elided).
-/

namespace Escher

/-- `serde_json::Value`. Objects are association lists; values decoded by
the client come from `resp.json::<serde_json::Value>()`, whose maps have
unique keys, and field lookup takes the first (hence only) match. -/
inductive Json where
  | null
  | bool (b : Bool)
  | num (q : ℚ)
  | str (s : String)
  | arr (elems : List Json)
  | obj (fields : List (String × Json))

/-- Field lookup in a JSON object's association list. -/
def lookupField : List (String × Json) → String → Option Json
  | [], _ => none
  | (k, v) :: rest, key => if k == key then some v else lookupField rest key

/-- `Json.getKey? v k`: the value at key `k` when `v` is an object. -/
def Json.getKey? : Json → String → Option Json
  | .obj fields, key => lookupField fields key
  | _, _ => none

/-- A `serde_json::Error` produced while re-interpreting a `Value`.
Mirrors the error classes serde reports: a required field absent, a value
of the wrong JSON type, an invalid value (wrong enum token, bad
timestamp), or an error raised via `serde::de::Error::custom` (as
`from_str` does for unparsable numeric strings). -/
inductive DecodeErr where
  | missingField (field : String)
  | invalidType (expected : String)
  | invalidValue (msg : String)
  | custom (msg : String)
deriving DecidableEq

deriving instance DecidableEq for Except

/-! ### Numeric strings (`from_str` with `T = f32`) -/

/-- Split a leading run of decimal digits off a character list. -/
def spanDigits : List Char → List Char × List Char
  | [] => ([], [])
  | c :: rest =>
    if c.isDigit then
      let p := spanDigits rest
      (c :: p.1, p.2)
    else ([], c :: rest)

/-- The number denoted by decimal digits, most significant first
(accumulator form). -/
def digitsValAux : List Char → Nat → Nat
  | [], acc => acc
  | c :: rest, acc => digitsValAux rest (acc * 10 + (c.toNat - 48))

def digitsVal (ds : List Char) : Nat := digitsValAux ds 0

/-- The value denoted by a Rust float literal
`[sign] digits [. digits] [(e|E) [sign] digits]` (at least one mantissa
digit), computed exactly in `ℚ`; `none` on any string `f32::from_str`
rejects. The non-finite literals `inf`/`infinity`/`nan` have no rational
value and are elided from the model. -/
def parseF32 (s : String) : Option ℚ :=
  let (signNum, cs) : Int × List Char :=
    match s.toList with
    | '+' :: rest => (1, rest)
    | '-' :: rest => (-1, rest)
    | cs => (1, cs)
  let (intDs, cs) := spanDigits cs
  let (fracDs, cs) : Option (List Char) × List Char :=
    match cs with
    | '.' :: rest => let (ds, r) := spanDigits rest; (some ds, r)
    | _ => (none, cs)
  if intDs.isEmpty && (fracDs.getD []).isEmpty then none
  else
    let mant : Int := signNum * (digitsVal (intDs ++ fracDs.getD []) : Int)
    let scaled : Int → ℚ := fun e =>
      let e' : Int := e - ((fracDs.getD []).length : Int)
      if 0 ≤ e' then mkRat (mant * 10 ^ e'.toNat) 1
      else mkRat mant (10 ^ (-e').toNat)
    match cs with
    | [] => some (scaled 0)
    | 'e' :: rest | 'E' :: rest =>
      let (esign, rest) : Int × List Char :=
        match rest with
        | '+' :: r => (1, r)
        | '-' :: r => (-1, r)
        | r => (1, r)
      let (expDs, rest) := spanDigits rest
      if expDs.isEmpty || !rest.isEmpty then none
      else some (scaled (esign * (digitsVal expDs : Int)))
    | _ => none

/-! ### Timestamps (`chrono::DateTime<Utc>`, deserialized from RFC 3339) -/

/-- A `chrono::DateTime<Utc>`: seconds since the Unix epoch plus a
sub-second nanosecond part. -/
structure DateTime where
  secs : Int
  nanos : Nat
deriving DecidableEq

def isLeapYear (y : Int) : Bool :=
  (y % 4 == 0 && y % 100 != 0) || (y % 400 == 0)

def daysInMonth (y : Int) (m : Nat) : Nat :=
  if m == 2 then (if isLeapYear y then 29 else 28)
  else if m == 4 || m == 6 || m == 9 || m == 11 then 30
  else 31

/-- Days from the civil date `y-m-d` to 1970-01-01 (proleptic Gregorian). -/
def daysFromCivil (y : Int) (m d : Nat) : Int :=
  let y' : Int := if m ≤ 2 then y - 1 else y
  let era : Int := Int.fdiv y' 400
  let yoe : Int := y' - era * 400
  let mp : Int := if m > 2 then (m : Int) - 3 else (m : Int) + 9
  let doy : Int := (153 * mp + 2) / 5 + (d : Int) - 1
  let doe : Int := yoe * 365 + yoe / 4 - yoe / 100 + doy
  era * 146097 + doe - 719468

/-- Read exactly `n` digits as their numeric value. -/
def readFixed (n : Nat) (cs : List Char) : Option (Nat × List Char) :=
  if (cs.take n).length == n && (cs.take n).all Char.isDigit then
    some (digitsVal (cs.take n), cs.drop n)
  else none

/-- RFC 3339 timestamp parsing as done by `DateTime<Utc>`'s `Deserialize`:
`YYYY-MM-DDTHH:MM:SS[.frac](Z|±HH:MM)`, normalized to UTC. Leap-second
(`:60`) handling is elided. -/
def parseRfc3339 (s : String) : Option DateTime := do
  let cs := s.toList
  let (year, cs) ← readFixed 4 cs
  let cs ← match cs with | '-' :: r => some r | _ => none
  let (month, cs) ← readFixed 2 cs
  let cs ← match cs with | '-' :: r => some r | _ => none
  let (day, cs) ← readFixed 2 cs
  let cs ← match cs with | 'T' :: r => some r | 't' :: r => some r | _ => none
  let (hour, cs) ← readFixed 2 cs
  let cs ← match cs with | ':' :: r => some r | _ => none
  let (minute, cs) ← readFixed 2 cs
  let cs ← match cs with | ':' :: r => some r | _ => none
  let (second, cs) ← readFixed 2 cs
  let fracRes : Option (Nat × List Char) :=
    match cs with
    | '.' :: r =>
      let (ds, r') := spanDigits r
      if ds.isEmpty then none
      else some (digitsVal (ds.take 9) * 10 ^ (9 - (ds.take 9).length), r')
    | _ => some (0, cs)
  let (nanos, cs) ← fracRes
  let offRes : Option (Int × List Char) :=
    match cs with
    | 'Z' :: r => some ((0 : Int), r)
    | 'z' :: r => some ((0 : Int), r)
    | '+' :: r => do
      let (oh, r) ← readFixed 2 r
      let r ← match r with | ':' :: r' => some r' | _ => none
      let (om, r) ← readFixed 2 r
      if oh ≤ 23 ∧ om ≤ 59 then some (((oh * 60 + om : Nat) : Int), r) else none
    | '-' :: r => do
      let (oh, r) ← readFixed 2 r
      let r ← match r with | ':' :: r' => some r' | _ => none
      let (om, r) ← readFixed 2 r
      if oh ≤ 23 ∧ om ≤ 59 then some (-((oh * 60 + om : Nat) : Int), r) else none
    | _ => none
  let (offMinutes, cs) ← offRes
  if !cs.isEmpty then none
  else if 1 ≤ month ∧ month ≤ 12 ∧ 1 ≤ day ∧ day ≤ daysInMonth year month
      ∧ hour ≤ 23 ∧ minute ≤ 59 ∧ second ≤ 59 then
    some ⟨daysFromCivil year month day * 86400
        + (hour : Int) * 3600 + (minute : Int) * 60 + (second : Int)
        - offMinutes * 60, nanos⟩
  else none

/-! ### Decoding primitives (`serde_json::from_value` on a `Value`) -/

def asObj : Json → Except DecodeErr (List (String × Json))
  | .obj fields => .ok fields
  | _ => .error (.invalidType "a map")

def asStr : Json → Except DecodeErr String
  | .str s => .ok s
  | _ => .error (.invalidType "a string")

def asBool : Json → Except DecodeErr Bool
  | .bool b => .ok b
  | _ => .error (.invalidType "a boolean")

def getField (fields : List (String × Json)) (name : String) : Except DecodeErr Json :=
  match lookupField fields name with
  | some v => .ok v
  | none => .error (.missingField name)

/-- The `from_str` deserializer of client.rs at `T = f32`: deserialize a
JSON string, then parse it, any parse error routed through
`serde::de::Error::custom`. -/
def from_str (v : Json) : Except DecodeErr ℚ := do
  let s ← asStr v
  match parseF32 s with
  | some q => .ok q
  | none => .error (.custom ("invalid float literal " ++ s))

def getStrField (fields : List (String × Json)) (name : String) :
    Except DecodeErr String := do
  asStr (← getField fields name)

def getBoolField (fields : List (String × Json)) (name : String) :
    Except DecodeErr Bool := do
  asBool (← getField fields name)

def getF32Field (fields : List (String × Json)) (name : String) :
    Except DecodeErr ℚ := do
  from_str (← getField fields name)

/-- `Side`, `#[serde(rename_all = "lowercase")]`. -/
inductive Side where
  | Buy
  | Sell
deriving DecidableEq

def serializeSide : Side → Json
  | .Buy => .str "buy"
  | .Sell => .str "sell"

def decodeSide (v : Json) : Except DecodeErr Side := do
  let s ← asStr v
  if s == "buy" then .ok .Buy
  else if s == "sell" then .ok .Sell
  else .error (.invalidValue ("unknown variant " ++ s))

def getSideField (fields : List (String × Json)) (name : String) :
    Except DecodeErr Side := do
  decodeSide (← getField fields name)

def getDateTimeField (fields : List (String × Json)) (name : String) :
    Except DecodeErr DateTime := do
  let s ← asStr (← getField fields name)
  match parseRfc3339 s with
  | some dt => .ok dt
  | none => .error (.invalidValue ("invalid RFC 3339 timestamp " ++ s))

/-! ### The response types and their derived decoders.
Each decoder mirrors the `#[derive(Deserialize)]` impl: the value must be
a JSON object, every struct field must be present (no defaults), unknown
keys are ignored (no `deny_unknown_fields`), and fields are checked in
declaration order. -/

/-- `AuthResult`, `#[serde(rename_all = "PascalCase")]`. -/
structure AuthResult where
  access_token : String
  refresh_token : String
deriving DecidableEq

def decodeAuthResult (v : Json) : Except DecodeErr AuthResult := do
  let fields ← asObj v
  let access_token ← getStrField fields "AccessToken"
  let refresh_token ← getStrField fields "RefreshToken"
  pure ⟨access_token, refresh_token⟩

/-- `AuthResponse`, `#[serde(rename_all = "PascalCase")]`. -/
structure AuthResponse where
  authentication_result : AuthResult
deriving DecidableEq

def decodeAuthResponse (v : Json) : Except DecodeErr AuthResponse := do
  let fields ← asObj v
  let authentication_result ← decodeAuthResult (← getField fields "AuthenticationResult")
  pure ⟨authentication_result⟩

structure Quote where
  quote_id : String
  product_id : String
  base_currency : String
  price : ℚ
  base_currency_size : ℚ
  quote_currency_size : ℚ
  side : Side
  created_at : DateTime
  expiry : DateTime
deriving DecidableEq

def decodeQuote (v : Json) : Except DecodeErr Quote := do
  let fields ← asObj v
  let quote_id ← getStrField fields "quote_id"
  let product_id ← getStrField fields "product_id"
  let base_currency ← getStrField fields "base_currency"
  let price ← getF32Field fields "price"
  let base_currency_size ← getF32Field fields "base_currency_size"
  let quote_currency_size ← getF32Field fields "quote_currency_size"
  let side ← getSideField fields "side"
  let created_at ← getDateTimeField fields "created_at"
  let expiry ← getDateTimeField fields "expiry"
  pure ⟨quote_id, product_id, base_currency, price, base_currency_size,
        quote_currency_size, side, created_at, expiry⟩

structure Order where
  id : String
  product_id : String
  order_type : String
  order_status : String
  time_in_force : String
  fill_price : ℚ
  fill_qty : ℚ
  price : ℚ
  order_size : ℚ
  client_side : Side
  status : String
  executed_value : ℚ
deriving DecidableEq

def decodeOrder (v : Json) : Except DecodeErr Order := do
  let fields ← asObj v
  let id ← getStrField fields "id"
  let product_id ← getStrField fields "product_id"
  let order_type ← getStrField fields "order_type"
  let order_status ← getStrField fields "order_status"
  let time_in_force ← getStrField fields "time_in_force"
  let fill_price ← getF32Field fields "fill_price"
  let fill_qty ← getF32Field fields "fill_qty"
  let price ← getF32Field fields "price"
  let order_size ← getF32Field fields "order_size"
  let client_side ← getSideField fields "client_side"
  let status ← getStrField fields "status"
  let executed_value ← getF32Field fields "executed_value"
  pure ⟨id, product_id, order_type, order_status, time_in_force, fill_price,
        fill_qty, price, order_size, client_side, status, executed_value⟩

structure AcceptQuote where
  success : Bool
  quote_id : String
  order : Order
deriving DecidableEq

def decodeAcceptQuote (v : Json) : Except DecodeErr AcceptQuote := do
  let fields ← asObj v
  let success ← getBoolField fields "success"
  let quote_id ← getStrField fields "quote_id"
  let order ← decodeOrder (← getField fields "order")
  pure ⟨success, quote_id, order⟩

/-- `EscherError`: the structured business-error envelope `{success, message}`. -/
structure EscherError where
  success : Bool
  message : String
deriving DecidableEq

def decodeEscherError (v : Json) : Except DecodeErr EscherError := do
  let fields ← asObj v
  let success ← getBoolField fields "success"
  let message ← getStrField fields "message"
  pure ⟨success, message⟩

/-! ### The classification protocol -/

/-- The four client operations that classify a response body. -/
inductive Op where
  | sign_in
  | refresh_token
  | quote
  | accept_quote
deriving DecidableEq

/-- The typed success value of an operation, as a sum over the three
success types. -/
inductive Response where
  | auth (a : AuthResponse)
  | quote (q : Quote)
  | accepted (a : AcceptQuote)
deriving DecidableEq

/-- The per-operation success-type decode:
`serde_json::from_value::<AuthResponse | Quote | AcceptQuote>(v)`. -/
def decodeResponse : Op → Json → Except DecodeErr Response
  | .sign_in, v => Response.auth <$> decodeAuthResponse v
  | .refresh_token, v => Response.auth <$> decodeAuthResponse v
  | .quote, v => Response.quote <$> decodeQuote v
  | .accept_quote, v => Response.accepted <$> decodeAcceptQuote v

/-- The `Error` enum of client.rs. The networking variant's payload is a
transport error, out of scope here. -/
inductive Error where
  | DecodingError (e : DecodeErr)
  | NetworkingError
  | HandledError (e : EscherError)
deriving DecidableEq

/-- The classification expression every operation applies to the parsed
body `v`:
`from_value::<T>(v.clone()).map_err(|_| match from_value::<EscherError>(v)
\x7b Ok(err) => Error::HandledError(err), Err(err) => err.into() \x7d)`.
Note the `map_err` closure binds the success-decode error as `_`,
discarding it: the decoding error it returns is the one produced by the
`EscherError` decode attempt. -/
def classify (op : Op) (v : Json) : Except Error Response :=
  match decodeResponse op v with
  | .ok s => .ok s
  | .error _ =>
    match decodeEscherError v with
    | .ok e => .error (.HandledError e)
    | .error e2 => .error (.DecodingError e2)

/-! ### Outbound request bodies (the `json!` literals) -/

/-- Body of `Client::quote`: `json!({"product_id": product_id,
"base_currency_size": base_currency_size, "side": side})`; `side` is
serialized by `Side`'s `Serialize` impl. -/
def quoteParams (product_id : String) (base_currency_size : String) (side : Side) : Json :=
  .obj [("product_id", .str product_id),
        ("base_currency_size", .str base_currency_size),
        ("side", serializeSide side)]

/-- Body of `Client::accept_quote`:
`json!({"quote_id": quote_id, "quantity" : quantity})` with
`quantity : Option<f32>`; serde serializes `None` as JSON `null`, so the
key is always present. -/
def acceptQuoteParams (quote_id : String) (quantity : Option ℚ) : Json :=
  .obj [("quote_id", .str quote_id),
        ("quantity", match quantity with
          | none => Json.null
          | some q => Json.num q)]

/-! ### Concrete response-body templates used in the theorems -/

/-- A shape-complete `Quote` body with given JSON values at the three
numeric positions and fixed well-formed values elsewhere. -/
def quoteBodyV (price base_currency_size quote_currency_size : Json) : Json :=
  .obj [("quote_id", .str "q1"), ("product_id", .str "BTC-USD"),
        ("base_currency", .str "BTC"), ("price", price),
        ("base_currency_size", base_currency_size),
        ("quote_currency_size", quote_currency_size), ("side", .str "buy"),
        ("created_at", .str "2023-01-01T00:00:00Z"),
        ("expiry", .str "2023-01-01T00:05:00Z")]

/-- A `Quote` body whose numeric fields hold the given strings. -/
def quoteBody (price base_currency_size quote_currency_size : String) : Json :=
  quoteBodyV (.str price) (.str base_currency_size) (.str quote_currency_size)

/-- A shape-complete `Order` body with given strings at the five numeric
positions. -/
def orderBody (fill_price fill_qty price order_size executed_value : String) : Json :=
  .obj [("id", .str "o1"), ("product_id", .str "BTC-USD"),
        ("order_type", .str "market"), ("order_status", .str "done"),
        ("time_in_force", .str "IOC"), ("fill_price", .str fill_price),
        ("fill_qty", .str fill_qty), ("price", .str price),
        ("order_size", .str order_size), ("client_side", .str "buy"),
        ("status", .str "filled"), ("executed_value", .str executed_value)]

def sampleOrderJson : Json := orderBody "50000.00" "1.5" "50000.00" "1.5" "75000.00"

/-- The `Order` value `sampleOrderJson` decodes to. -/
def sampleOrder : Order :=
  ⟨"o1", "BTC-USD", "market", "done", "IOC", 50000, mkRat 3 2, 50000, mkRat 3 2,
   .Buy, "filled", 75000⟩

/-- An `AcceptQuote` body around a given order value, with `success: true`
and no `message` key. -/
def acceptBody (order : Json) : Json :=
  .obj [("success", .bool true), ("quote_id", .str "q1"), ("order", order)]

/-- A shape-complete `AcceptQuote` body whose `success` field is `false`. -/
def acceptFalseJson : Json :=
  .obj [("success", .bool false), ("quote_id", .str "q1"),
        ("order", sampleOrderJson)]

/-- A body that matches the `AcceptQuote` success shape (the extra
`message` key is ignored by the derived decoder) and simultaneously the
`EscherError` shape (`success` and `message` both present). -/
def acceptBothJson : Json :=
  .obj [("success", .bool true), ("quote_id", .str "q1"),
        ("order", sampleOrderJson), ("message", .str "rejected")]

/-- `created_at` of the templates: 2023-01-01T00:00:00Z. -/
def createdAt : DateTime := ⟨1672531200, 0⟩

/-- `expiry` of the templates: 2023-01-01T00:05:00Z. -/
def expiryAt : DateTime := ⟨1672531500, 0⟩

/-! ### Theorems -/

/-- Decoding a `quoteBody` template reduces to parsing its three numeric
strings; every non-numeric field of the template is fixed and
well-formed. -/
theorem decodeQuote_quoteBody (p b q : String) :
    decodeQuote (quoteBody p b q) =
      (from_str (.str p)).bind fun vp =>
        (from_str (.str b)).bind fun vb =>
          (from_str (.str q)).bind fun vq =>
            .ok ⟨"q1", "BTC-USD", "BTC", vp, vb, vq, .Buy, createdAt, expiryAt⟩ :=
  rfl

/-- Decoding an `orderBody` template reduces to parsing its five numeric
strings. -/
theorem decodeOrder_orderBody (fp fq p os ev : String) :
    decodeOrder (orderBody fp fq p os ev) =
      (from_str (.str fp)).bind fun v1 =>
        (from_str (.str fq)).bind fun v2 =>
          (from_str (.str p)).bind fun v3 =>
            (from_str (.str os)).bind fun v4 =>
              (from_str (.str ev)).bind fun v5 =>
                .ok ⟨"o1", "BTC-USD", "market", "done", "IOC", v1, v2, v3, v4,
                     .Buy, "filled", v5⟩ :=
  rfl

/-- Decoding an `acceptBody` envelope reduces to decoding the embedded
order. -/
theorem decodeAcceptQuote_acceptBody (o : Json) :
    decodeAcceptQuote (acceptBody o) =
      (decodeOrder o).bind fun ord => .ok ⟨true, "q1", ord⟩ :=
  rfl

/-- C1: for every operation, any body the operation's success type decodes
from is classified as that typed success value — the success probe runs
first, so a body matching both the success shape and the error shape is
classified as success, never as a handled error. -/
theorem success_decode_first (op : Op) (v : Json) (s : Response)
    (h : decodeResponse op v = .ok s) : classify op v = .ok s := by
  simp [classify, h]

/-- Witness for C1 at `accept_quote` on a body matching both the
`AcceptQuote` shape and the `EscherError` shape. -/
theorem success_decode_first_witness :
    classify .accept_quote acceptBothJson = .ok (.accepted ⟨true, "q1", sampleOrder⟩) :=
  success_decode_first .accept_quote acceptBothJson
    (.accepted ⟨true, "q1", sampleOrder⟩) rfl

/-- C2: a body of exactly the shape `{"success": false, "message": t}` is
classified as a handled error carrying `t` verbatim, for every operation. -/
theorem handled_error_envelope (op : Op) (t : String) :
    classify op (.obj [("success", .bool false), ("message", .str t)]) =
      .error (.HandledError ⟨false, t⟩) := by
  cases op <;> rfl

/-- C3: when a body decodes neither as the operation's success type nor as
the `EscherError` shape, classification returns a decoding error — never a
handled error and never a success. -/
theorem unmatched_body_decoding_error (op : Op) (v : Json) (e1 e2 : DecodeErr)
    (h1 : decodeResponse op v = .error e1)
    (h2 : decodeEscherError v = .error e2) :
    ∃ d, classify op v = .error (.DecodingError d) := by
  exact ⟨e2, by simp [classify, h1, h2]⟩

/-- Witness for C3 at `quote` on the body `{"foo": 1}`. -/
theorem unmatched_body_decoding_error_witness :
    ∃ d, classify .quote (.obj [("foo", .num 1)]) = .error (.DecodingError d) :=
  unmatched_body_decoding_error .quote (.obj [("foo", .num 1)])
    (.missingField "quote_id") (.missingField "success") (by decide) (by decide)

/-- C4 counterexample: on the body `{}` under `quote`, the success-type
decode fails with `missing field quote_id`, yet the decoding error the
operation surfaces is `missing field success` — the error produced by the
second, error-shape decode attempt, not the original failure of the first
attempt, which the `map_err` closure discards as `_`. -/
theorem surfaced_error_is_second_probe_cex :
    decodeResponse .quote (.obj []) = .error (.missingField "quote_id") ∧
    decodeEscherError (.obj []) = .error (.missingField "success") ∧
    classify .quote (.obj []) = .error (.DecodingError (.missingField "success")) ∧
    classify .quote (.obj []) ≠ .error (.DecodingError (.missingField "quote_id")) :=
  ⟨by decide, by decide, by decide, by decide⟩

/-- C4 amended: when both decode attempts fail, the operation surfaces the
decoding failure produced by the second, error-shape decode attempt as the
unhandled decoding error returned to the caller. -/
theorem surfaced_error_is_second_probe (op : Op) (v : Json) (e1 e2 : DecodeErr)
    (h1 : decodeResponse op v = .error e1)
    (h2 : decodeEscherError v = .error e2) :
    classify op v = .error (.DecodingError e2) := by
  simp [classify, h1, h2]

/-- Witness for the amended C4 at `quote` on the body `{}`. -/
theorem surfaced_error_is_second_probe_witness :
    classify .quote (.obj []) = .error (.DecodingError (.missingField "success")) :=
  surfaced_error_is_second_probe .quote (.obj []) (.missingField "quote_id")
    (.missingField "success") (by decide) (by decide)

/-- C5: every numeric field of `Quote` (`price`, `base_currency_size`,
`quote_currency_size`) and of `Order` (`fill_price`, `fill_qty`, `price`,
`order_size`, `executed_value`) decodes from a JSON string by parsing it
to its numeric value; a malformed numeric string at any of those
positions fails the success-type decode with the `from_str` custom error,
and classification then falls back to the error-shape probe, which also
fails on the template, yielding a decoding error. -/
theorem numeric_string_fields (s : String) :
    (∀ v : ℚ, parseF32 s = some v →
      decodeQuote (quoteBody s s s) =
        .ok ⟨"q1", "BTC-USD", "BTC", v, v, v, .Buy, createdAt, expiryAt⟩ ∧
      decodeOrder (orderBody s s s s s) =
        .ok ⟨"o1", "BTC-USD", "market", "done", "IOC", v, v, v, v, .Buy,
             "filled", v⟩) ∧
    (parseF32 s = none →
      decodeQuote (quoteBody s "1" "1") =
        .error (.custom ("invalid float literal " ++ s)) ∧
      decodeQuote (quoteBody "1" s "1") =
        .error (.custom ("invalid float literal " ++ s)) ∧
      decodeQuote (quoteBody "1" "1" s) =
        .error (.custom ("invalid float literal " ++ s)) ∧
      decodeOrder (orderBody s "1" "1" "1" "1") =
        .error (.custom ("invalid float literal " ++ s)) ∧
      decodeOrder (orderBody "1" s "1" "1" "1") =
        .error (.custom ("invalid float literal " ++ s)) ∧
      decodeOrder (orderBody "1" "1" s "1" "1") =
        .error (.custom ("invalid float literal " ++ s)) ∧
      decodeOrder (orderBody "1" "1" "1" s "1") =
        .error (.custom ("invalid float literal " ++ s)) ∧
      decodeOrder (orderBody "1" "1" "1" "1" s) =
        .error (.custom ("invalid float literal " ++ s)) ∧
      classify .quote (quoteBody s "1" "1") =
        .error (.DecodingError (.missingField "success")) ∧
      classify .accept_quote (acceptBody (orderBody s "1" "1" "1" "1")) =
        .error (.DecodingError (.missingField "message"))) := by
  have hred : from_str (.str s) = match parseF32 s with
      | some q => .ok q
      | none => .error (.custom ("invalid float literal " ++ s)) := rfl
  constructor
  · intro v hv
    have hs : from_str (.str s) = .ok v := by rw [hred, hv]
    constructor
    · rw [decodeQuote_quoteBody, hs]; rfl
    · rw [decodeOrder_orderBody, hs]; rfl
  · intro hn
    have hs : from_str (.str s) = .error (.custom ("invalid float literal " ++ s)) := by
      rw [hred, hn]
    have h1 : decodeResponse .quote (quoteBody s "1" "1") =
        .error (.custom ("invalid float literal " ++ s)) := by
      simp only [decodeResponse]
      rw [decodeQuote_quoteBody, hs]; rfl
    have h2 : decodeEscherError (quoteBody s "1" "1") =
        .error (.missingField "success") := rfl
    have h3 : decodeResponse .accept_quote (acceptBody (orderBody s "1" "1" "1" "1")) =
        .error (.custom ("invalid float literal " ++ s)) := by
      simp only [decodeResponse]
      rw [decodeAcceptQuote_acceptBody, decodeOrder_orderBody, hs]; rfl
    have h4 : decodeEscherError (acceptBody (orderBody s "1" "1" "1" "1")) =
        .error (.missingField "message") := rfl
    refine ⟨?_, ?_, ?_, ?_, ?_, ?_, ?_, ?_, ?_, ?_⟩
    · rw [decodeQuote_quoteBody, hs]; rfl
    · rw [decodeQuote_quoteBody, hs]; rfl
    · rw [decodeQuote_quoteBody, hs]; rfl
    · rw [decodeOrder_orderBody, hs]; rfl
    · rw [decodeOrder_orderBody, hs]; rfl
    · rw [decodeOrder_orderBody, hs]; rfl
    · rw [decodeOrder_orderBody, hs]; rfl
    · rw [decodeOrder_orderBody, hs]; rfl
    · simp only [classify, h1, h2]
    · simp only [classify, h3, h4]

/-- Witness for C5: `"123.45"` parses to `123.45 = 2469/20` in every
numeric position, and the malformed string `"12x"` fails the decode. -/
theorem numeric_string_fields_witness :
    decodeQuote (quoteBody "123.45" "123.45" "123.45") =
      .ok ⟨"q1", "BTC-USD", "BTC", mkRat 2469 20, mkRat 2469 20, mkRat 2469 20,
           .Buy, createdAt, expiryAt⟩ ∧
    decodeQuote (quoteBody "12x" "1" "1") =
      .error (.custom ("invalid float literal " ++ "12x")) :=
  ⟨((numeric_string_fields "123.45").1 (mkRat 2469 20) (by decide)).1,
   ((numeric_string_fields "12x").2 (by decide)).1⟩

/-- C6: `Side` serializes as the lowercase literals `"sell"`/`"buy"`,
that serialization is what the outbound quote request body carries at key
`side`, and decoding the serialization of any `Side` value yields the
original value. -/
theorem side_roundtrip (pid bcs : String) :
    serializeSide .Sell = .str "sell" ∧ serializeSide .Buy = .str "buy" ∧
    (∀ sd : Side, decodeSide (serializeSide sd) = .ok sd) ∧
    (∀ sd : Side, Json.getKey? (quoteParams pid bcs sd) "side" =
      some (serializeSide sd)) := by
  refine ⟨rfl, rfl, fun sd => ?_, fun sd => ?_⟩ <;> cases sd <;> rfl

/-- C7: with `quantity = None` the accept-quote body carries `null` at key
`quantity` (so the key is "absent or null" in the claim's sense), and with
`quantity = Some(0.5)` the body is `{"quote_id": id, "quantity": 0.5}`. -/
theorem accept_quote_request_body (id : String) :
    acceptQuoteParams id none =
      .obj [("quote_id", .str id), ("quantity", .null)] ∧
    acceptQuoteParams id (some (mkRat 1 2)) =
      .obj [("quote_id", .str id), ("quantity", .num (mkRat 1 2))] :=
  ⟨rfl, rfl⟩

/-- C8: classification looks only at shapes, never at the value of
`success`: a `{"success": true, "message": …}` body whose success-type
decode fails is classified as a handled error even though `success` is
`true`, and a shape-complete `AcceptQuote` body with `"success": false`
is returned as a success value whose `success` field is `false`. -/
theorem success_flag_ignored :
    classify .quote (.obj [("success", .bool true), ("message", .str "oops")]) =
      .error (.HandledError ⟨true, "oops"⟩) ∧
    classify .accept_quote acceptFalseJson =
      .ok (.accepted ⟨false, "q1", sampleOrder⟩) :=
  ⟨rfl, rfl⟩

/-- C9: a `Quote` body whose numeric field is a JSON number instead of a
JSON string fails the success-type decode even with all other fields
well-formed, and the body falls through the error-shape probe to a
decoding error. -/
theorem numeric_json_number_rejected (q : ℚ) :
    decodeQuote (quoteBodyV (.num q) (.str "1.5") (.str "75000.00")) =
      .error (.invalidType "a string") ∧
    decodeQuote (quoteBodyV (.str "50000.00") (.num q) (.str "75000.00")) =
      .error (.invalidType "a string") ∧
    decodeQuote (quoteBodyV (.str "50000.00") (.str "1.5") (.num q)) =
      .error (.invalidType "a string") ∧
    classify .quote (quoteBodyV (.num q) (.str "1.5") (.str "75000.00")) =
      .error (.DecodingError (.missingField "success")) :=
  ⟨rfl, rfl, rfl, rfl⟩

/-- C10: with `quantity = None` the accept-quote body always contains the
key `quantity`, bound to JSON `null` — the key is never omitted. -/
theorem quantity_key_always_null (id : String) :
    Json.getKey? (acceptQuoteParams id none) "quantity" = some .null :=
  rfl

end Escher
